import Mathlib

/-!
Verification development for the TUFLOW QGIS plugin sources:
`tuflow/ARR2016/downloader.py` (retrying, validated download abstraction with a
host-integrated transport `DownloaderQGIS` and a standalone transport
`DownloaderRequests`) and `tuflow/alg/swmm_run_inp_or_gpkg.py` /
`tuflow/alg/swmm_run_inp.py` (subprocess runner with cooperative cancellation
and a bounded report scan).

The Python code is shallowly embedded: the network, the clock, QSettings, the
UTF-8 decoder and the child process are explicit environment data; every
embedded operation is a total computable function whose result records the
attempts made, the sleeps performed, the final process-wide user-agent
setting, the final object state and the Python exception that escaped, if any.
-/

/-! ## Small Python string helpers (ASCII whitespace model of str.strip etc.) -/

/-- Whitespace characters recognised by the model of Python str.strip. -/
def isPySpace (c : Char) : Bool := c == ' ' || c == '\t' || c == '\n' || c == '\r'

/-- Model of Python str.strip() (no argument form), ASCII whitespace. -/
def pyStrip (s : String) : String :=
  ⟨((s.data.dropWhile isPySpace).reverse.dropWhile isPySpace).reverse⟩

/-- Model of Python str.rstrip(). -/
def pyRstrip (s : String) : String :=
  ⟨(s.data.reverse.dropWhile isPySpace).reverse⟩

/-- Model of Python str.upper() on ASCII. -/
def pyUpper (s : String) : String := ⟨s.data.map Char.toUpper⟩

/-- Does the needle occur at the start of the haystack (Python str.startswith)? -/
def beginsWith : List Char → List Char → Bool
  | [], _ => true
  | _ :: _, [] => false
  | n :: ns, h :: hs => n == h && beginsWith ns hs

/-- Does the needle occur anywhere in the haystack (Python `a in b` on strings)? -/
def occursIn (needle : List Char) : List Char → Bool
  | [] => needle.isEmpty
  | c :: cs => beginsWith needle (c :: cs) || occursIn needle cs

/-! ## Data model of `downloader.py` -/

/-- Python exceptions that can escape the embedded downloader operations. -/
inductive PyExn where
  | indexError
  | unicodeDecodeError
  | typeError
  | connectionError
deriving DecidableEq, Repr

/-- The decoded payload stored in `self.data`: text or raw bytes. -/
inductive Payload where
  | text (s : String)
  | binary (b : List Nat)
deriving DecidableEq, Repr

/-- The mutable fields of a `Downloader` object (`ret_code`, `error_string`,
`data` from `Downloader.__init__`).  `ret_code` is `none` when no HTTP status
was obtained (Python `None`). -/
structure DState where
  ret_code : Option Nat
  error_string : String
  data : Option Payload
deriving DecidableEq, Repr

/-- Field values set by `Downloader.__init__`. -/
def initState : DState := ⟨none, "", none⟩

/-- `Downloader.ok`: `return self.ret_code == 200`. -/
def Downloader.ok (st : DState) : Bool := st.ret_code == some 200

/-- One `QNetworkReply` as observed by `DownloaderQGIS.download`: the HTTP
status attribute (`none` when no HTTP response was obtained), `errorString()`,
the body delivered by `readAll()` and the raw `Content-Type` header (empty
string when the header is absent, as `rawHeader` yields an empty byte array). -/
structure Reply where
  retCode : Option Nat
  errorString : String
  body : List Nat
  contentType : String
deriving Repr

/-- Environment of a `DownloaderQGIS.download` call: the reply produced by the
network for each attempt index, the UTF-8 decoder (`none` models a
`UnicodeDecodeError` from `bytes.decode`), and the value of the process-wide
`/qgis/networkAndProxy/userAgent` setting before the call (`none` = absent). -/
structure QgisEnv where
  replies : Nat → Reply
  decodeUtf8 : List Nat → Option String
  priorUserAgent : Option String

/-- Result of the loop in `DownloaderQGIS.download`: either a Python exception
escaped with the object fields as they stood, or the loop reached `break` with
the object fields, the last reply (used after the loop for `rawHeader`) and the
local `data` bytearray. -/
inductive LoopEnd where
  | raised (st : DState) (e : PyExn)
  | broke (st : DState) (lastReply : Reply) (dataAcc : List Nat)
deriving Repr

/-- Observable trace of the download loop: number of `netman.get` attempts,
the sleeps performed between attempts in order, the number of cache
invalidations, and how the loop ended. -/
structure LoopOut where
  attempts : Nat
  sleeps : List Nat
  cacheBusts : Nat
  fin : LoopEnd
deriving Repr

/-- The guard `validator is not None and not validator(data)` (line 102),
phrased positively: a payload passes when no validator is supplied or the
validator accepts it. -/
def validPayload (validator : Option (List Nat → Bool)) (d : List Nat) : Bool :=
  match validator with
  | some f => f d
  | none => true

/-- The `while True` loop of `DownloaderQGIS.download` (lines 80-112).
`budget` is the number of retries still allowed, so the current Python
`try_count` is `retry_count - budget` and the Python guard
`try_count < retry_count` is exactly `budget > 0`; the loop is entered with
`budget = retry_count`.  `dataAcc` is the local `data` bytearray, overwritten
only on a 200 reply. -/
def qgisLoop (replies : Nat → Reply) (validator : Option (List Nat → Bool))
    (retry_count : Nat) (retry_interval : List Nat) : Nat → List Nat → LoopOut
  | 0, dataAcc =>
      let reply := replies retry_count
      let ret := reply.retCode
      let dataAcc := if ret == some 200 then reply.body else dataAcc
      if ret ≠ some 200 then
        ⟨1, [], 0, .broke ⟨ret, reply.errorString, none⟩ reply dataAcc⟩
      else if validPayload validator dataAcc then
        ⟨1, [], 0, .broke ⟨ret, "", none⟩ reply dataAcc⟩
      else
        ⟨1, [], 0,
         .broke ⟨none, "Downloaded data is invalid or incomplete.", none⟩ reply dataAcc⟩
  | b + 1, dataAcc =>
      let t := retry_count - (b + 1)
      let reply := replies t
      let ret := reply.retCode
      let dataAcc := if ret == some 200 then reply.body else dataAcc
      if ret ≠ some 200 then
        match retry_interval[t]? with
        | some w =>
            let r := qgisLoop replies validator retry_count retry_interval b dataAcc
            ⟨r.attempts + 1, w :: r.sleeps, r.cacheBusts, r.fin⟩
        | none => ⟨1, [], 0, .raised ⟨ret, "", none⟩ .indexError⟩
      else if validPayload validator dataAcc then
        ⟨1, [], 0, .broke ⟨ret, "", none⟩ reply dataAcc⟩
      else
        match retry_interval[t]? with
        | some w =>
            let r := qgisLoop replies validator retry_count retry_interval b dataAcc
            ⟨r.attempts + 1, w :: r.sleeps, r.cacheBusts + 1, r.fin⟩
        | none => ⟨1, [], 0, .raised ⟨ret, "", none⟩ .indexError⟩

/-- The header loop of `DownloaderQGIS.download` (lines 71-76) restricted to its
effect on the user-agent setting: fold over the headers, capturing the current
setting into `old_user_agent` and overwriting the setting whenever the key is
`User-Agent`.  Returns `(old_user_agent, setting after the loop)`. -/
def setUA : List (String × String) → Option String → Option String →
    Option String × Option String
  | [], oldUA, st => (oldUA, st)
  | (k, v) :: rest, oldUA, st =>
      if k = "User-Agent" then
        setUA rest (if st.isSome then st else oldUA) (some v)
      else setUA rest oldUA st

/-- Lines 86-89 of `DownloaderQGIS.download`: Python truthiness test
`if old_user_agent:` — restore the captured value when it is truthy (a
non-empty string), otherwise remove the setting. -/
def restoreUA : Option String → Option String
  | some v => if v = "" then none else some v
  | none => none

/-- Observable outcome of one `DownloaderQGIS.download` call. -/
structure QgisOutcome where
  attempts : Nat
  sleeps : List Nat
  cacheBusts : Nat
  userAgent : Option String
  state : DState
  exn : Option PyExn
deriving DecidableEq, Repr

/-- `DownloaderQGIS.download(retry_count, retry_interval, validator)` on a
fresh object.  The restore of the user-agent setting (lines 86-89) runs on
every loop iteration, before any retry, break or `IndexError`, so the final
setting is `restoreUA old_user_agent` on every exit path.  After the loop,
`if self.error_string: return` skips the content-type classification; otherwise
a non-zip `Content-Type` triggers `data.decode('utf-8')`. -/
def DownloaderQGIS.download (env : QgisEnv) (headers : List (String × String))
    (retry_count : Nat) (retry_interval : List Nat)
    (validator : Option (List Nat → Bool)) : QgisOutcome :=
  let oldUA := (setUA headers none env.priorUserAgent).1
  let finalUA := restoreUA oldUA
  let lo := qgisLoop env.replies validator retry_count retry_interval retry_count []
  match lo.fin with
  | .raised st e => ⟨lo.attempts, lo.sleeps, lo.cacheBusts, finalUA, st, some e⟩
  | .broke st rep dataAcc =>
      if st.error_string ≠ "" then
        ⟨lo.attempts, lo.sleeps, lo.cacheBusts, finalUA, st, none⟩
      else if occursIn "zip".data rep.contentType.data then
        ⟨lo.attempts, lo.sleeps, lo.cacheBusts, finalUA,
         { st with data := some (.binary dataAcc) }, none⟩
      else
        match env.decodeUtf8 dataAcc with
        | some s =>
            ⟨lo.attempts, lo.sleeps, lo.cacheBusts, finalUA,
             { st with data := some (.text s) }, none⟩
        | none => ⟨lo.attempts, lo.sleeps, lo.cacheBusts, finalUA, st, some .unicodeDecodeError⟩

/-- A `requests.Response` as observed by `DownloaderRequests.download`:
status code, `r.text`, `r.content`, and `r.headers.get('content-type')`
(`none` when the header is absent). -/
structure ReqResponse where
  status_code : Nat
  text : String
  content : List Nat
  contentType : Option String
deriving Repr

/-- Environment of a `DownloaderRequests.download` call; `response = none`
models `requests.get` raising a network-layer exception. -/
structure ReqEnv where
  response : Option ReqResponse
  decodeUtf8 : List Nat → Option String

/-- Observable outcome of one `DownloaderRequests.download` call. -/
structure ReqOutcome where
  attempts : Nat
  state : DState
  exn : Option PyExn
deriving DecidableEq, Repr

/-- `requests.Response.ok`: status below 400. -/
def ReqResponse.ok (r : ReqResponse) : Bool := r.status_code < 400

/-- `DownloaderRequests.download` on a fresh object: a single GET with no
retry policy and no validator.  `'zip' not in r.headers.get('content-type')`
raises `TypeError` when the header is absent; `r.content.decode('utf-8')` can
raise `UnicodeDecodeError`. -/
def DownloaderRequests.download (env : ReqEnv) : ReqOutcome :=
  match env.response with
  | none => ⟨1, initState, some .connectionError⟩
  | some r =>
      let st : DState := ⟨some r.status_code, "", none⟩
      if ¬ r.ok then ⟨1, { st with error_string := r.text }, none⟩
      else
        match r.contentType with
        | none => ⟨1, st, some .typeError⟩
        | some ct =>
            if occursIn "zip".data ct.data then
              ⟨1, { st with data := some (.binary r.content) }, none⟩
            else
              match env.decodeUtf8 r.content with
              | some s => ⟨1, { st with data := some (.text s) }, none⟩
              | none => ⟨1, st, some .unicodeDecodeError⟩

/-! ## Data model of the SWMM process runner and report scan -/

/-- The report file as seen by the scans: absent (`Path(...).exists()` false),
unreadable (`open`/read raises, caught by the scan), or its lines. -/
inductive ReportFile where
  | missing
  | unreadable (msg : String)
  | content (ls : List String)
deriving Repr

/-- Lines 325-338 of `swmm_run_inp_or_gpkg.py` and lines 240-251 of
`swmm_run_inp.py`, parametrised by the diagnostic classifier applied to the
stripped line: skip blank lines; on a diagnostic line, set the truncation flag
and stop before emitting once 10 lines were already emitted.  Returns the
emitted (stripped) lines, the truncation flag, and the unread suffix of the
file. -/
def scanLoop (isDiag : String → Bool) : List String → Nat →
    List String × Bool × List String
  | [], _ => ([], false, [])
  | l :: ls, count =>
      let s := pyStrip l
      if s = "" then scanLoop isDiag ls count
      else if isDiag s then
        if 10 ≤ count then ([], true, ls)
        else
          let r := scanLoop isDiag ls (count + 1)
          (s :: r.1, r.2.1, r.2.2)
      else scanLoop isDiag ls count

/-- Diagnostic classifier of `RunSWMMInp._scan_report` in
`swmm_run_inp_or_gpkg.py` (lines 329-331): the upper-cased stripped line
starts with ERROR or WARNING. -/
def isDiagStarts (s : String) : Bool :=
  beginsWith "ERROR".data (pyUpper s).data || beginsWith "WARNING".data (pyUpper s).data

/-- Diagnostic classifier of the inline scan in `swmm_run_inp.py`
(line 245): the upper-cased stripped line contains ERROR or WARNING. -/
def isDiagContains (s : String) : Bool :=
  occursIn "ERROR".data (pyUpper s).data || occursIn "WARNING".data (pyUpper s).data

/-- `RunSWMMInp._scan_report` of `swmm_run_inp_or_gpkg.py` (lines 317-347):
missing file is a no-op, a read failure is caught and reported as a single
warning line, otherwise the bounded scan runs and a trailing literal marker is
emitted when it was truncated. -/
def RunSWMMInp.scan_report (f : ReportFile) : List String :=
  match f with
  | .missing => []
  | .unreadable msg => ["Unable to scan report for warnings/errors: " ++ msg]
  | .content ls =>
      let r := scanLoop isDiagStarts ls 0
      r.1 ++ if r.2.1 then ["..."] else []

/-- The inline report scan of `RunSWMMInp.processAlgorithm` in
`swmm_run_inp.py` (lines 234-258): same shape, but classifying by substring
containment. -/
def RunSWMMInp.scan_report_inp (f : ReportFile) : List String :=
  match f with
  | .missing => []
  | .unreadable msg => ["Unable to scan report for warnings/errors: " ++ msg]
  | .content ls =>
      let r := scanLoop isDiagContains ls 0
      r.1 ++ if r.2.1 then ["..."] else []

/-- Environment of one `RunSWMMInp._run_swmm_process` call:
`launchError = some e` models an exception raised by `subprocess.Popen` or
while managing the child inside the `with` block (caught at lines 302-312);
`lines` are the child's merged stdout/stderr lines; `canceled k` is the value
`is_canceled()` returns at the k-th poll; `exitNatural` / `exitTerminated` are
what `proc.wait()` returns after a natural exit resp. after `proc.terminate()`;
`report` is the report file to scan afterwards. -/
structure RunEnv where
  launchError : Option String
  lines : List String
  canceled : Nat → Bool
  exitNatural : Int
  exitTerminated : Int
  report : ReportFile

/-- The read loop at lines 292-300: for each stdout line, deliver its
rstripped form when its stripped form is non-empty, then poll `is_canceled()`
once; on a set signal terminate the child and stop reading.  Returns the
delivered lines, the number of polls performed (one per line consumed) and
whether the child was terminated. -/
def readLoop (canceled : Nat → Bool) : List String → Nat →
    List String × Nat × Bool
  | [], _ => ([], 0, false)
  | l :: ls, k =>
      let pushed := if pyStrip l ≠ "" then [pyRstrip l] else []
      if canceled k then (pushed, 1, true)
      else
        let r := readLoop canceled ls (k + 1)
        (pushed ++ r.1, r.2.1 + 1, r.2.2)

/-- Observable outcome of one `RunSWMMInp._run_swmm_process` call.
`scanOutput = none` means `_scan_report` was never invoked. -/
structure RunOutcome where
  delivered : List String
  polls : Nat
  terminated : Bool
  exitCode : Int
  scanOutput : Option (List String)
deriving Repr

/-- `RunSWMMInp._run_swmm_process` of `swmm_run_inp_or_gpkg.py`
(lines 265-315): an exception in the subprocess block is caught, reported and
turned into the fixed exit code 1 with no report scan; otherwise the read loop
runs, `proc.wait()` supplies the exit code, and `_scan_report` always runs
before returning. -/
def RunSWMMInp.run_swmm_process (env : RunEnv) : RunOutcome :=
  match env.launchError with
  | some _ => ⟨[], 0, false, 1, none⟩
  | none =>
      let r := readLoop env.canceled env.lines 0
      let code := if r.2.2 then env.exitTerminated else env.exitNatural
      ⟨r.1, r.2.1, r.2.2, code, some (RunSWMMInp.scan_report env.report)⟩

/-- Lines emitted by the read loop for a given list of child output lines:
the rstripped forms of the lines whose stripped form is non-empty. -/
def deliveredOf (ls : List String) : List String :=
  ls.filterMap fun l => if pyStrip l ≠ "" then some (pyRstrip l) else none

/-- Diagnostic lines of a report, as classified by `isDiag` on the stripped
line (blank lines never count). -/
def diagsOf (isDiag : String → Bool) (ls : List String) : List String :=
  ls.filterMap fun l =>
    if pyStrip l = "" then none
    else if isDiag (pyStrip l) then some (pyStrip l) else none

/-! ## Lemmas about the bounded report scan -/

/-- Characterisation of the scan loop: the emitted lines are the first
`10 - count` diagnostic lines, truncation fires exactly when more diagnostics
exist, and every diagnostic beyond the first `10 - count + 1` (the extra one is
the diagnostic that triggers the break and is consumed unemitted) is left in
the unread suffix. -/
theorem scanLoop_spec (isDiag : String → Bool) (ls : List String) : ∀ count,
    (scanLoop isDiag ls count).1 = (diagsOf isDiag ls).take (10 - count)
    ∧ ((scanLoop isDiag ls count).2.1
        = decide (10 - count < (diagsOf isDiag ls).length))
    ∧ diagsOf isDiag (scanLoop isDiag ls count).2.2
        = (diagsOf isDiag ls).drop (10 - count + 1) := by
  induction ls with
  | nil => intro count; simp [scanLoop, diagsOf]
  | cons l ls ih =>
    intro count
    by_cases hs : pyStrip l = ""
    · have hd : diagsOf isDiag (l :: ls) = diagsOf isDiag ls := by
        simp [diagsOf, List.filterMap_cons, hs]
      simpa [scanLoop, hs, hd] using ih count
    · by_cases hdg : isDiag (pyStrip l) = true
      · have hd : diagsOf isDiag (l :: ls) = pyStrip l :: diagsOf isDiag ls := by
          simp [diagsOf, List.filterMap_cons, hs, hdg]
        by_cases hc : 10 ≤ count
        · have h0 : 10 - count = 0 := by omega
          simp [scanLoop, hs, hdg, hc, hd, h0]
        · obtain ⟨ih1, ih2, ih3⟩ := ih (count + 1)
          have harith : 10 - count = (10 - (count + 1)) + 1 := by omega
          have hun : scanLoop isDiag (l :: ls) count
              = (pyStrip l :: (scanLoop isDiag ls (count + 1)).1,
                 (scanLoop isDiag ls (count + 1)).2.1,
                 (scanLoop isDiag ls (count + 1)).2.2) := by
            simp [scanLoop, hs, hdg, hc]
          rw [hun, hd, harith]
          refine ⟨?_, ?_, ?_⟩
          · simp [ih1]
          · simp [ih2, Nat.succ_lt_succ_iff]
          · simp [ih3]
      · have hd : diagsOf isDiag (l :: ls) = diagsOf isDiag ls := by
          simp [diagsOf, List.filterMap_cons, hs, hdg]
        simpa [scanLoop, hs, hdg, hd] using ih count

/-! ## Lemmas about the process read loop -/

theorem readLoop_nocancel (canceled : Nat → Bool) (ls : List String) : ∀ k0,
    (∀ j, j < ls.length → canceled (k0 + j) = false) →
    readLoop canceled ls k0 = (deliveredOf ls, ls.length, false) := by
  induction ls with
  | nil => intro k0 _; simp [readLoop, deliveredOf]
  | cons l ls ih =>
    intro k0 h
    have h0 : canceled k0 = false := by simpa using h 0 (by simp)
    have hrec := ih (k0 + 1) (fun j hj => by
      have e : k0 + (j + 1) = k0 + 1 + j := by omega
      have := h (j + 1) (by simpa using Nat.succ_lt_succ hj)
      rwa [e] at this)
    by_cases hs : pyStrip l = ""
    · simp [readLoop, h0, hrec, deliveredOf, List.filterMap_cons, hs]
    · simp [readLoop, h0, hrec, deliveredOf, List.filterMap_cons, hs]

theorem readLoop_cancelAt (canceled : Nat → Bool) (ls : List String) : ∀ k0 k,
    k < ls.length → (∀ j, j < k → canceled (k0 + j) = false) →
    canceled (k0 + k) = true →
    readLoop canceled ls k0 = (deliveredOf (ls.take (k + 1)), k + 1, true) := by
  induction ls with
  | nil => intro k0 k hk; exact absurd hk (by simp)
  | cons l ls ih =>
    intro k0 k hk hbefore hset
    cases k with
    | zero =>
        have h0 : canceled k0 = true := by simpa using hset
        by_cases hs : pyStrip l = ""
        · simp [readLoop, h0, deliveredOf, List.filterMap_cons, hs]
        · simp [readLoop, h0, deliveredOf, List.filterMap_cons, hs]
    | succ k =>
        have h0 : canceled k0 = false := by simpa using hbefore 0 (Nat.succ_pos k)
        have hrec := ih (k0 + 1) k (by simpa using Nat.lt_of_succ_lt_succ hk)
          (fun j hj => by
            have e : k0 + (j + 1) = k0 + 1 + j := by omega
            have := hbefore (j + 1) (Nat.succ_lt_succ hj)
            rwa [e] at this)
          (by
            have e : k0 + (k + 1) = k0 + 1 + k := by omega
            rwa [e] at hset)
        by_cases hs : pyStrip l = ""
        · simp [readLoop, h0, hrec, deliveredOf, List.filterMap_cons, hs]
        · simp [readLoop, h0, hrec, deliveredOf, List.filterMap_cons, hs]

/-! ## Lemmas about the QGIS download loop -/

/-- When every reply has a non-200 status and the schedule covers the retry
count, the loop performs one attempt per remaining budget plus the final one,
sleeps the schedule entries in order, never busts the cache and ends in a
break carrying the last reply's status and error string. -/
theorem qgisLoop_allfail (replies : Nat → Reply) (validator : Option (List Nat → Bool))
    (N : Nat) (sched : List Nat)
    (hfail : ∀ n, (replies n).retCode ≠ some 200) (hlen : N ≤ sched.length) :
    ∀ budget, budget ≤ N → ∀ dataAcc,
      qgisLoop replies validator N sched budget dataAcc =
        ⟨budget + 1, (sched.drop (N - budget)).take budget, 0,
         .broke ⟨(replies N).retCode, (replies N).errorString, none⟩ (replies N) dataAcc⟩ := by
  intro budget
  induction budget with
  | zero =>
      intro _ dataAcc
      have hb : ((replies N).retCode == some 200) = false := by
        simpa using hfail N
      simp [qgisLoop, hfail N, hb]
  | succ b ih =>
      intro hble dataAcc
      have ht : N - (b + 1) < sched.length := by omega
      have hsome : sched[N - (b + 1)]? = some (sched[N - (b + 1)]) :=
        List.getElem?_eq_getElem ht
      have hb : ((replies (N - (b + 1))).retCode == some 200) = false := by
        simpa using hfail (N - (b + 1))
      have hdrop : sched.drop (N - (b + 1))
          = sched[N - (b + 1)] :: sched.drop (N - b) := by
        have h1 : N - (b + 1) + 1 = N - b := by omega
        rw [← h1]
        exact List.drop_eq_getElem_cons ht
      simp only [qgisLoop, hfail (N - (b + 1)), hb, hsome, ih (by omega) dataAcc,
        if_true, ne_eq, not_false_iff, ite_false, Bool.false_eq_true, if_false]
      rw [hdrop]
      simp

/-- When every reply is a 200 but the validator rejects every payload and the
schedule covers the retry count, the loop performs one attempt per remaining
budget plus the final one, sleeps the schedule entries in order, busts the
cache once per retry and ends in the sentinel break: no status code and the
literal invalid-data error string. -/
theorem qgisLoop_allreject (replies : Nat → Reply) (f : List Nat → Bool)
    (N : Nat) (sched : List Nat)
    (h200 : ∀ n, (replies n).retCode = some 200) (hrej : ∀ b, f b = false)
    (hlen : N ≤ sched.length) :
    ∀ budget, budget ≤ N → ∀ dataAcc,
      qgisLoop replies (some f) N sched budget dataAcc =
        ⟨budget + 1, (sched.drop (N - budget)).take budget, budget,
         .broke ⟨none, "Downloaded data is invalid or incomplete.", none⟩
           (replies N) (replies N).body⟩ := by
  intro budget
  induction budget with
  | zero =>
      intro _ dataAcc
      simp [qgisLoop, h200 N, validPayload, hrej]
  | succ b ih =>
      intro hble dataAcc
      have ht : N - (b + 1) < sched.length := by omega
      have hsome : sched[N - (b + 1)]? = some (sched[N - (b + 1)]) :=
        List.getElem?_eq_getElem ht
      have hdrop : sched.drop (N - (b + 1))
          = sched[N - (b + 1)] :: sched.drop (N - b) := by
        have h1 : N - (b + 1) + 1 = N - b := by omega
        rw [← h1]
        exact List.drop_eq_getElem_cons ht
      simp only [qgisLoop, h200 (N - (b + 1)), validPayload, hrej, hsome,
        ih (by omega) ((replies (N - (b + 1))).body), if_true, ne_eq, not_false_iff,
        ite_false, Bool.false_eq_true, if_false, beq_self_eq_true, ite_true,
        not_true, reduceCtorEq]
      rw [hdrop]
      simp

/-- States the loop can end in: an escaped exception is always the
IndexError from the retry schedule with the error string still empty, and a
break with status 200 always carries an empty error string. -/
def finOK : LoopEnd → Prop
  | .raised st e => e = PyExn.indexError ∧ st.error_string = ""
  | .broke st _ _ => st.ret_code = some 200 → st.error_string = ""

/-- Every way the download loop can end satisfies `finOK`. -/
theorem qgisLoop_finOK (replies : Nat → Reply) (validator : Option (List Nat → Bool))
    (N : Nat) (sched : List Nat) :
    ∀ budget dataAcc, finOK (qgisLoop replies validator N sched budget dataAcc).fin := by
  intro budget
  induction budget with
  | zero =>
      intro dataAcc
      simp only [qgisLoop]
      repeat' split
      all_goals first
        | exact ⟨rfl, rfl⟩
        | exact fun hr => rfl
        | exact fun hr => absurd hr (by assumption)
        | exact fun hr => absurd hr (by simp)
  | succ b ih =>
      intro dataAcc
      simp only [qgisLoop]
      repeat' split
      all_goals first
        | exact ih _
        | exact ⟨rfl, rfl⟩
        | exact fun hr => rfl

/-! ## Claim theorems: downloader -/

/-- C1: for every retry policy with maximum retry count N whose wait schedule
has at least N entries, a fetch whose every attempt yields a non-200 status
performs exactly N + 1 GET attempts, sleeps the schedule entries indexed by
the attempt number between consecutive attempts, raises nothing, and returns a
non-ok result whose error string is the transport's (non-empty) error
description.  The hypothesis on `errorString` models Qt, whose
`QIODevice.errorString()` never returns an empty string. -/
theorem c1_always_failing_fetch (env : QgisEnv) (headers : List (String × String))
    (N : Nat) (sched : List Nat) (validator : Option (List Nat → Bool))
    (hfail : ∀ n, (env.replies n).retCode ≠ some 200)
    (hlen : N ≤ sched.length)
    (herr : (env.replies N).errorString ≠ "") :
    (DownloaderQGIS.download env headers N sched validator).attempts = N + 1
    ∧ (DownloaderQGIS.download env headers N sched validator).sleeps = sched.take N
    ∧ (DownloaderQGIS.download env headers N sched validator).exn = none
    ∧ Downloader.ok (DownloaderQGIS.download env headers N sched validator).state = false
    ∧ (DownloaderQGIS.download env headers N sched validator).state.error_string
        = (env.replies N).errorString
    ∧ (DownloaderQGIS.download env headers N sched validator).state.error_string ≠ "" := by
  have hloop := qgisLoop_allfail env.replies validator N sched hfail hlen N le_rfl []
  have hb : ((env.replies N).retCode == some 200) = false := by
    simpa using hfail N
  unfold DownloaderQGIS.download
  rw [hloop]
  simp [herr, Downloader.ok, hb]

/-- C1 witness: three attempts for retry count 2 against a server that always
answers 404. -/
theorem c1_witness :
    (∀ n, ((fun (_ : Nat) => (⟨some 404, "Not Found", [], ""⟩ : Reply)) n).retCode ≠ some 200)
    ∧ (DownloaderQGIS.download
        ⟨fun _ => ⟨some 404, "Not Found", [], ""⟩, fun _ => some "", none⟩
        [] 2 [5, 10] none).attempts = 2 + 1 := by
  refine ⟨by intro n; simp, ?_⟩
  exact (c1_always_failing_fetch
    ⟨fun _ => ⟨some 404, "Not Found", [], ""⟩, fun _ => some "", none⟩
    [] 2 [5, 10] none (by intro n; simp) (by simp) (by simp)).1

/-- C4: on the host-integrated transport, with a wait schedule covering the
retry count and a validator rejecting every payload, the exhausted fetch ends
with no status code (the Python None sentinel), exactly the literal error
string, and a non-ok result. -/
theorem c4_validator_always_rejects (env : QgisEnv) (headers : List (String × String))
    (N : Nat) (sched : List Nat) (f : List Nat → Bool)
    (h200 : ∀ n, (env.replies n).retCode = some 200)
    (hrej : ∀ b, f b = false)
    (hlen : N ≤ sched.length) :
    (DownloaderQGIS.download env headers N sched (some f)).exn = none
    ∧ (DownloaderQGIS.download env headers N sched (some f)).state.ret_code = none
    ∧ (DownloaderQGIS.download env headers N sched (some f)).state.error_string
        = "Downloaded data is invalid or incomplete."
    ∧ Downloader.ok (DownloaderQGIS.download env headers N sched (some f)).state = false
    ∧ (DownloaderQGIS.download env headers N sched (some f)).attempts = N + 1 := by
  have hloop := qgisLoop_allreject env.replies f N sched h200 hrej hlen N le_rfl []
  unfold DownloaderQGIS.download
  rw [hloop]
  simp [Downloader.ok]

/-- C4 witness: one retry, always-200 replies, always-rejecting validator. -/
theorem c4_witness :
    (∀ (b : List Nat), (fun (_ : List Nat) => false) b = false)
    ∧ (DownloaderQGIS.download
        ⟨fun _ => ⟨some 200, "e", [1, 2], "text"⟩, fun _ => some "x", none⟩
        [] 1 [5] (some fun _ => false)).state.ret_code = none := by
  refine ⟨fun b => rfl, ?_⟩
  exact (c4_validator_always_rejects
    ⟨fun _ => ⟨some 200, "e", [1, 2], "text"⟩, fun _ => some "x", none⟩
    [] 1 [5] (fun _ => false) (fun n => rfl) (fun b => rfl) (by simp)).2.1

/-- C6: for every state reachable by construction followed by one download
call on either transport, the result is ok exactly when the stored status code
is 200 and the stored error description is empty. -/
theorem c6_ok_iff_200_and_no_error :
    (∀ (env : QgisEnv) (headers : List (String × String)) (N : Nat)
        (sched : List Nat) (validator : Option (List Nat → Bool)),
      Downloader.ok (DownloaderQGIS.download env headers N sched validator).state = true
        ↔ ((DownloaderQGIS.download env headers N sched validator).state.ret_code = some 200
            ∧ (DownloaderQGIS.download env headers N sched validator).state.error_string = ""))
    ∧ (∀ env : ReqEnv,
      Downloader.ok (DownloaderRequests.download env).state = true
        ↔ ((DownloaderRequests.download env).state.ret_code = some 200
            ∧ (DownloaderRequests.download env).state.error_string = "")) := by
  constructor
  · intro env headers N sched validator
    have hfin := qgisLoop_finOK env.replies validator N sched N []
    unfold DownloaderQGIS.download
    cases hfe : (qgisLoop env.replies validator N sched N []).fin with
    | raised st e =>
        rw [hfe] at hfin
        simp only [finOK] at hfin
        simp only [hfe]
        simp [Downloader.ok, hfin.2]
    | broke st rep dataAcc =>
        rw [hfe] at hfin
        simp only [finOK] at hfin
        simp only [hfe]
        by_cases he : st.error_string = ""
        · by_cases hz : occursIn "zip".data rep.contentType.data = true
          · simp [Downloader.ok, he, hz]
          · cases hd : env.decodeUtf8 dataAcc with
            | some s => simp [Downloader.ok, he, hz, hd]
            | none => simp [Downloader.ok, he, hz, hd]
        · have : st.ret_code ≠ some 200 := fun hr => he (hfin hr)
          simp [Downloader.ok, he, this]
  · intro env
    unfold DownloaderRequests.download
    cases hr : env.response with
    | none => simp [Downloader.ok, initState]
    | some r =>
        by_cases hok : r.ok = true
        · cases hct : r.contentType with
          | none => simp [Downloader.ok, hok, hct]
          | some ct =>
              by_cases hz : occursIn "zip".data ct.data = true
              · simp [Downloader.ok, hok, hct, hz]
              · cases hd : env.decodeUtf8 r.content with
                | some s => simp [Downloader.ok, hok, hct, hz, hd]
                | none => simp [Downloader.ok, hok, hct, hz, hd]
        · have h400 : ¬ r.status_code < 400 := by
            simpa [ReqResponse.ok] using hok
          have : r.status_code ≠ 200 := by omega
          simp [Downloader.ok, hok, this]

/-- The only exceptions `DownloaderQGIS.download` can raise: the schedule
IndexError and the payload UnicodeDecodeError. -/
theorem downloadQGIS_exn_cases (env : QgisEnv) (headers : List (String × String))
    (N : Nat) (sched : List Nat) (v : Option (List Nat → Bool)) :
    (DownloaderQGIS.download env headers N sched v).exn = none
    ∨ (DownloaderQGIS.download env headers N sched v).exn = some PyExn.indexError
    ∨ (DownloaderQGIS.download env headers N sched v).exn = some PyExn.unicodeDecodeError := by
  have hfin := qgisLoop_finOK env.replies v N sched N []
  unfold DownloaderQGIS.download
  cases hfe : (qgisLoop env.replies v N sched N []).fin with
  | raised st e =>
      rw [hfe] at hfin
      simp only [finOK] at hfin
      simp [hfe, hfin.1]
  | broke st rep dataAcc =>
      simp only [hfe]
      by_cases he : st.error_string = ""
      · by_cases hz : occursIn "zip".data rep.contentType.data = true
        · simp [he, hz]
        · cases hd : env.decodeUtf8 dataAcc with
          | some s => simp [he, hz, hd]
          | none => simp [he, hz, hd]
      · simp [he]

/-- The only exceptions `DownloaderRequests.download` can raise: the
network-layer exception from `requests.get`, the TypeError from an absent
content-type header, and the payload UnicodeDecodeError. -/
theorem downloadRequests_exn_cases (env : ReqEnv) :
    (DownloaderRequests.download env).exn = none
    ∨ (DownloaderRequests.download env).exn = some PyExn.connectionError
    ∨ (DownloaderRequests.download env).exn = some PyExn.typeError
    ∨ (DownloaderRequests.download env).exn = some PyExn.unicodeDecodeError := by
  unfold DownloaderRequests.download
  cases hr : env.response with
  | none => simp
  | some r =>
      by_cases hok : r.ok = true
      · cases hct : r.contentType with
        | none => simp [hok, hct]
        | some ct =>
            by_cases hz : occursIn "zip".data ct.data = true
            · simp [hok, hct, hz]
            · cases hd : env.decodeUtf8 r.content with
              | some s => simp [hok, hct, hz, hd]
              | none => simp [hok, hct, hz, hd]
      · simp [hok]

/-- C2 (amended): `run` and `scanReport` never raise — a launch or management
failure becomes the fixed exit code 1 with no scan, and a scan I/O failure
becomes a warning value; a fetch resolves non-200 statuses, validator
rejections and exhausted retries (with the transport's non-empty error
description and a covering wait schedule) to a non-ok result value, but it can
raise: on the host-integrated transport the schedule IndexError or the payload
UnicodeDecodeError, and on the standalone transport the `requests.get`
network exception, the TypeError from an absent content-type header, or the
payload UnicodeDecodeError. -/
theorem c2_failures_resolved_to_values :
    (∀ (env : QgisEnv) (headers : List (String × String)) (N : Nat)
        (sched : List Nat) (v : Option (List Nat → Bool)),
      (DownloaderQGIS.download env headers N sched v).exn = none
      ∨ (DownloaderQGIS.download env headers N sched v).exn = some PyExn.indexError
      ∨ (DownloaderQGIS.download env headers N sched v).exn = some PyExn.unicodeDecodeError)
    ∧ (∀ env : ReqEnv,
      (DownloaderRequests.download env).exn = none
      ∨ (DownloaderRequests.download env).exn = some PyExn.connectionError
      ∨ (DownloaderRequests.download env).exn = some PyExn.typeError
      ∨ (DownloaderRequests.download env).exn = some PyExn.unicodeDecodeError)
    ∧ (∀ (env : QgisEnv) (headers : List (String × String)) (N : Nat)
        (sched : List Nat) (v : Option (List Nat → Bool)),
      (∀ n, (env.replies n).retCode ≠ some 200) → N ≤ sched.length →
      (env.replies N).errorString ≠ "" →
        (DownloaderQGIS.download env headers N sched v).exn = none)
    ∧ (∀ env : RunEnv, env.launchError ≠ none →
        (RunSWMMInp.run_swmm_process env).exitCode = 1
        ∧ (RunSWMMInp.run_swmm_process env).scanOutput = none)
    ∧ (∀ msg, RunSWMMInp.scan_report (.unreadable msg)
        = ["Unable to scan report for warnings/errors: " ++ msg])
    ∧ (∀ msg, RunSWMMInp.scan_report_inp (.unreadable msg)
        = ["Unable to scan report for warnings/errors: " ++ msg]) := by
  refine ⟨downloadQGIS_exn_cases, downloadRequests_exn_cases, ?_, ?_, fun msg => rfl, fun msg => rfl⟩
  · intro env headers N sched v hfail hlen herr
    have hloop := qgisLoop_allfail env.replies v N sched hfail hlen N le_rfl []
    unfold DownloaderQGIS.download
    rw [hloop]
    simp [herr]
  · intro env hl
    cases h : env.launchError with
    | none => exact absurd h hl
    | some e => simp [RunSWMMInp.run_swmm_process, h]

/-- C2 counterexample: on the standalone transport, a 200 response with no
content-type header makes `download` evaluate `'zip' not in None`, and the
TypeError escapes to the caller — a failure that is not communicated as a
result value, contradicting the claim. -/
theorem c2_counterexample :
    (DownloaderRequests.download
      ⟨some ⟨200, "", [104], none⟩, fun _ => some "h"⟩).exn = some PyExn.typeError := by
  decide

/-- C2 witness: an always-404 fetch with a covering schedule raises nothing. -/
theorem c2_witness :
    (DownloaderQGIS.download
      ⟨fun _ => ⟨some 404, "Not Found", [], ""⟩, fun _ => some "", none⟩
      [] 1 [5] none).exn = none :=
  c2_failures_resolved_to_values.2.2.1
    ⟨fun _ => ⟨some 404, "Not Found", [], ""⟩, fun _ => some "", none⟩
    [] 1 [5] none (by intro n; simp) (by simp) (by simp)

/-- The first attempt succeeding with no validator ends the download loop at
once, whatever the retry policy. -/
theorem qgisLoop_first_success (replies : Nat → Reply) (N : Nat) (sched : List Nat)
    (h200 : (replies 0).retCode = some 200) (dataAcc : List Nat) :
    qgisLoop replies none N sched N dataAcc =
      ⟨1, [], 0, .broke ⟨(replies 0).retCode, "", none⟩ (replies 0) (replies 0).body⟩ := by
  cases N with
  | zero => simp [qgisLoop, h200, validPayload]
  | succ b => simp [qgisLoop, h200, validPayload]

/-- C3 counterexample: against the same response stream (first response a 500
with error text, second a clean 200), the host-integrated transport retries
under policy N = 1 / schedule [0] and returns ok after two attempts, while the
standalone transport — whose `download` accepts no retry policy and no
validator — performs a single attempt and returns a non-ok result: the two
transports do not satisfy the same fetch contract. -/
theorem c3_counterexample :
    (DownloaderQGIS.download
        ⟨fun n => if n = 0 then ⟨some 500, "server error", [], ""⟩
                  else ⟨some 200, "Unknown error", [104, 105], "text/plain"⟩,
         fun _ => some "hi", none⟩ [] 1 [0] none).attempts = 2
    ∧ Downloader.ok (DownloaderQGIS.download
        ⟨fun n => if n = 0 then ⟨some 500, "server error", [], ""⟩
                  else ⟨some 200, "Unknown error", [104, 105], "text/plain"⟩,
         fun _ => some "hi", none⟩ [] 1 [0] none).state = true
    ∧ (DownloaderRequests.download
        ⟨some ⟨500, "server error", [], some "text/plain"⟩, fun _ => some "hi"⟩).attempts = 1
    ∧ Downloader.ok (DownloaderRequests.download
        ⟨some ⟨500, "server error", [], some "text/plain"⟩, fun _ => some "hi"⟩).state
        = false := by
  refine ⟨by decide, by decide, by decide, by decide⟩

/-- C3 (amended): only the host-integrated transport accepts a caller-supplied
retry policy and validator and retries per the backoff schedule; the
standalone transport always performs exactly one GET.  The two produce equal
result states and exceptions when the first response is an HTTP 200 with a
present content-type header, no validator is supplied and the transports share
the payload decoder. -/
theorem c3_transport_contract (envQ : QgisEnv) (envR : ReqEnv)
    (headers : List (String × String)) (N : Nat) (sched : List Nat) (r0 : ReqResponse)
    (h1 : envR.response = some r0)
    (h2 : r0.status_code = 200)
    (h3 : (envQ.replies 0).retCode = some 200)
    (h4 : (envQ.replies 0).body = r0.content)
    (h5 : r0.contentType = some ((envQ.replies 0).contentType))
    (h6 : envQ.decodeUtf8 = envR.decodeUtf8) :
    (∀ env : ReqEnv, (DownloaderRequests.download env).attempts = 1)
    ∧ (DownloaderQGIS.download envQ headers N sched none).state
        = (DownloaderRequests.download envR).state
    ∧ (DownloaderQGIS.download envQ headers N sched none).exn
        = (DownloaderRequests.download envR).exn
    ∧ (DownloaderQGIS.download envQ headers N sched none).attempts = 1 := by
  have hone : ∀ env : ReqEnv, (DownloaderRequests.download env).attempts = 1 := by
    intro env
    unfold DownloaderRequests.download
    cases env.response with
    | none => rfl
    | some r =>
        by_cases hok : r.ok = true
        · cases hct : r.contentType with
          | none => simp [hok, hct]
          | some ct =>
              by_cases hz : occursIn "zip".data ct.data = true
              · simp [hok, hct, hz]
              · cases hd : env.decodeUtf8 r.content with
                | some s => simp [hok, hct, hz, hd]
                | none => simp [hok, hct, hz, hd]
        · simp [hok]
  have hloop := qgisLoop_first_success envQ.replies N sched h3 []
  have hok : r0.ok = true := by simp [ReqResponse.ok, h2]
  refine ⟨hone, ?_, ?_, ?_⟩
  · unfold DownloaderQGIS.download DownloaderRequests.download
    rw [hloop, h1]
    simp only [h2, h3, h4, h5, h6, hok, if_true]
    by_cases hz : occursIn "zip".data (envQ.replies 0).contentType.data = true
    · simp [hz, h3, h2]
    · cases hd : envR.decodeUtf8 r0.content with
      | some s => simp [hz, hd, h3, h2]
      | none => simp [hz, hd, h3, h2]
  · unfold DownloaderQGIS.download DownloaderRequests.download
    rw [hloop, h1]
    simp only [h2, h3, h4, h5, h6, hok, if_true]
    by_cases hz : occursIn "zip".data (envQ.replies 0).contentType.data = true
    · simp [hz]
    · cases hd : envR.decodeUtf8 r0.content with
      | some s => simp [hz, hd]
      | none => simp [hz, hd]
  · unfold DownloaderQGIS.download
    rw [hloop]
    by_cases hz : occursIn "zip".data (envQ.replies 0).contentType.data = true
    · simp [hz]
    · cases hd : envQ.decodeUtf8 (envQ.replies 0).body with
      | some s => simp [hz, hd]
      | none => simp [hz, hd]

/-- C3 witness: aligned single-200 environments produce equal states. -/
theorem c3_witness :
    (DownloaderQGIS.download
        ⟨fun _ => ⟨some 200, "err", [104], "text/plain"⟩, fun _ => some "h", none⟩
        [] 5 [1, 2, 3, 4, 5] none).state
      = (DownloaderRequests.download
          ⟨some ⟨200, "t", [104], some "text/plain"⟩, fun _ => some "h"⟩).state :=
  (c3_transport_contract
    ⟨fun _ => ⟨some 200, "err", [104], "text/plain"⟩, fun _ => some "h", none⟩
    ⟨some ⟨200, "t", [104], some "text/plain"⟩, fun _ => some "h"⟩
    [] 5 [1, 2, 3, 4, 5] ⟨200, "t", [104], some "text/plain"⟩
    rfl rfl rfl rfl rfl rfl).2.1

/-- A header list containing no User-Agent key leaves both the captured old
value and the setting untouched. -/
theorem setUA_no_ua : ∀ (headers : List (String × String)),
    (∀ p ∈ headers, p.1 ≠ "User-Agent") → ∀ old st, setUA headers old st = (old, st) := by
  intro headers
  induction headers with
  | nil => intro _ old st; rfl
  | cons p rest ih =>
      intro h old st
      have hp : p.1 ≠ "User-Agent" := h p (by simp)
      cases p with
      | mk k v =>
          simp only [setUA, if_neg hp]
          exact ih (fun q hq => h q (by simp [hq])) old st

/-- With at most one User-Agent header, the captured `old_user_agent` is the
prior setting when such a header exists and None otherwise. -/
theorem setUA_oldUA : ∀ (headers : List (String × String)),
    (headers.filter fun p => p.1 = "User-Agent").length ≤ 1 → ∀ st : Option String,
    (setUA headers none st).1
      = if (headers.filter fun p => p.1 = "User-Agent").length = 1 then st else none := by
  intro headers
  induction headers with
  | nil => intro _ st; rfl
  | cons p rest ih =>
      intro huniq st
      cases p with
      | mk k v =>
          by_cases hk : k = "User-Agent"
          · have hcons : (((k, v) :: rest).filter fun p => p.1 = "User-Agent")
                = (k, v) :: rest.filter fun p => p.1 = "User-Agent" := by
              simp [List.filter_cons, hk]
            have hflen : (rest.filter fun p => p.1 = "User-Agent").length = 0 := by
              rw [hcons] at huniq
              simp only [List.length_cons] at huniq
              omega
            have hrest : ∀ q ∈ rest, q.1 ≠ "User-Agent" := by
              intro q hq
              by_contra hc
              have : q ∈ rest.filter fun p => p.1 = "User-Agent" := by
                simp [List.mem_filter, hq, hc]
              have := List.length_pos.mpr (List.ne_nil_of_mem this)
              omega
            have hstep : setUA ((k, v) :: rest) none st
                = setUA rest (if st.isSome then st else none) (some v) := by
              simp [setUA, hk]
            rw [hstep, setUA_no_ua rest hrest]
            have hlen1 : (((k, v) :: rest).filter fun p => p.1 = "User-Agent").length = 1 := by
              simp [List.filter_cons, hk, hflen]
            rw [hlen1]
            cases st <;> simp
          · have hstep : setUA ((k, v) :: rest) none st = setUA rest none st := by
              simp [setUA, hk]
            have hsame : (((k, v) :: rest).filter fun p => p.1 = "User-Agent")
                = rest.filter fun p => p.1 = "User-Agent" := by
              simp [List.filter_cons, hk]
            rw [hstep, hsame]
            exact ih (by rw [hsame] at huniq; exact huniq) st

/-- On every exit path, the final user-agent setting only depends on the
headers and the prior value. -/
theorem download_userAgent (env : QgisEnv) (headers : List (String × String))
    (N : Nat) (sched : List Nat) (v : Option (List Nat → Bool)) :
    (DownloaderQGIS.download env headers N sched v).userAgent
      = restoreUA (setUA headers none env.priorUserAgent).1 := by
  unfold DownloaderQGIS.download
  cases hfe : (qgisLoop env.replies v N sched N []).fin with
  | raised st e => simp [hfe]
  | broke st rep d =>
      simp only [hfe]
      by_cases he : st.error_string = ""
      · by_cases hz : occursIn "zip".data rep.contentType.data = true
        · simp [he, hz]
        · cases hd : env.decodeUtf8 d with
          | some s => simp [he, hz, hd]
          | none => simp [he, hz, hd]
      · simp [he]

/-- C5 counterexample: a fetch whose headers contain no User-Agent entry,
against a prior setting of "Mozilla", ends with the setting removed — the
restore block at lines 86-89 runs unconditionally and `old_user_agent` was
never captured, so a prior value that existed is not restored. -/
theorem c5_counterexample :
    (DownloaderQGIS.download
        ⟨fun _ => ⟨some 200, "e", [], "zip"⟩, fun _ => some "", some "Mozilla"⟩
        [] 0 [] none).userAgent ≠ some "Mozilla" := by
  decide

/-- C5 (amended): on every exit path (success, failure or escaped exception),
the final user-agent setting is the prior value only when a User-Agent header
was supplied and the prior value was a non-empty string; in every other case
(no prior value, empty prior value, or no User-Agent header) the setting is
absent after the call — the code removes it even when it never modified it. -/
theorem c5_user_agent_restoration (env : QgisEnv) (headers : List (String × String))
    (N : Nat) (sched : List Nat) (v : Option (List Nat → Bool))
    (huniq : (headers.filter fun p => p.1 = "User-Agent").length ≤ 1) :
    (DownloaderQGIS.download env headers N sched v).userAgent
      = if (headers.filter fun p => p.1 = "User-Agent").length = 1
        then restoreUA env.priorUserAgent else none := by
  rw [download_userAgent, setUA_oldUA headers huniq env.priorUserAgent]
  split
  · rfl
  · rfl

/-- C5 witness: one User-Agent header and a non-empty prior value. -/
theorem c5_witness :
    (DownloaderQGIS.download
        ⟨fun _ => ⟨some 200, "e", [], "zip"⟩, fun _ => some "", some "Mozilla"⟩
        [("User-Agent", "ARR")] 0 [] none).userAgent
      = if (([("User-Agent", "ARR")].filter
            fun p => p.1 = "User-Agent").length = 1)
        then restoreUA (some "Mozilla") else none :=
  c5_user_agent_restoration
    ⟨fun _ => ⟨some 200, "e", [], "zip"⟩, fun _ => some "", some "Mozilla"⟩
    [("User-Agent", "ARR")] 0 [] none (by decide)

/-! ## Claim theorems: process runner and report scan -/

/-- C7: the cancellation signal is polled exactly once per output line; once a
poll observes it set after a delivered line the child is terminated, no
further lines are delivered, and run returns with the terminated process's
exit code; a child producing no output is never cancelled before it exits. -/
theorem c7_cooperative_cancellation (env : RunEnv) (hl : env.launchError = none) :
    ((∀ j, j < env.lines.length → env.canceled j = false) →
      (RunSWMMInp.run_swmm_process env).polls = env.lines.length
      ∧ (RunSWMMInp.run_swmm_process env).terminated = false
      ∧ (RunSWMMInp.run_swmm_process env).exitCode = env.exitNatural
      ∧ (RunSWMMInp.run_swmm_process env).delivered = deliveredOf env.lines)
    ∧ (∀ k, k < env.lines.length → (∀ j, j < k → env.canceled j = false) →
        env.canceled k = true →
        (RunSWMMInp.run_swmm_process env).terminated = true
        ∧ (RunSWMMInp.run_swmm_process env).polls = k + 1
        ∧ (RunSWMMInp.run_swmm_process env).delivered = deliveredOf (env.lines.take (k + 1))
        ∧ (RunSWMMInp.run_swmm_process env).exitCode = env.exitTerminated)
    ∧ (env.lines = [] →
        (RunSWMMInp.run_swmm_process env).terminated = false
        ∧ (RunSWMMInp.run_swmm_process env).polls = 0
        ∧ (RunSWMMInp.run_swmm_process env).exitCode = env.exitNatural) := by
  refine ⟨?_, ?_, ?_⟩
  · intro hnc
    have h := readLoop_nocancel env.canceled env.lines 0
      (fun j hj => by simpa using hnc j hj)
    simp [RunSWMMInp.run_swmm_process, hl, h]
  · intro k hk hb hs
    have h := readLoop_cancelAt env.canceled env.lines 0 k hk
      (fun j hj => by simpa using hb j hj) (by simpa using hs)
    simp [RunSWMMInp.run_swmm_process, hl, h]
  · intro hnil
    simp [RunSWMMInp.run_swmm_process, hl, hnil, readLoop]

/-- C7 witness: cancelling at the second poll terminates after two lines. -/
theorem c7_witness :
    (RunSWMMInp.run_swmm_process
        ⟨none, ["A", "B", "C"], fun k => k == 1, 7, 15, .missing⟩).terminated = true
    ∧ (RunSWMMInp.run_swmm_process
        ⟨none, ["A", "B", "C"], fun k => k == 1, 7, 15, .missing⟩).polls = 1 + 1
    ∧ (RunSWMMInp.run_swmm_process
        ⟨none, ["A", "B", "C"], fun k => k == 1, 7, 15, .missing⟩).delivered
        = deliveredOf ((["A", "B", "C"] : List String).take (1 + 1))
    ∧ (RunSWMMInp.run_swmm_process
        ⟨none, ["A", "B", "C"], fun k => k == 1, 7, 15, .missing⟩).exitCode = 15 :=
  (c7_cooperative_cancellation
    ⟨none, ["A", "B", "C"], fun k => k == 1, 7, 15, .missing⟩ rfl).2.1
    1 (by decide) (by decide) (by decide)

/-- C10: in the task-capable module the report scan runs exactly when the
subprocess block completes without raising — also after cancellation or a
non-zero exit — and an exception while launching or managing the child skips
the scan entirely and returns the fixed failure code 1. -/
theorem c10_scan_iff_no_exception (env : RunEnv) :
    ((RunSWMMInp.run_swmm_process env).scanOutput
        = some (RunSWMMInp.scan_report env.report) ↔ env.launchError = none)
    ∧ (env.launchError ≠ none →
        (RunSWMMInp.run_swmm_process env).exitCode = 1
        ∧ (RunSWMMInp.run_swmm_process env).scanOutput = none
        ∧ (RunSWMMInp.run_swmm_process env).delivered = []) := by
  cases h : env.launchError with
  | none => simp [RunSWMMInp.run_swmm_process, h]
  | some e => simp [RunSWMMInp.run_swmm_process, h]

/-- C10 witness: a launch failure yields exit code 1 and no scan. -/
theorem c10_witness :
    (RunSWMMInp.run_swmm_process
        ⟨some "WinError 2", ["x"], fun _ => false, 0, 0, .content ["ERROR 1"]⟩).exitCode = 1
    ∧ (RunSWMMInp.run_swmm_process
        ⟨some "WinError 2", ["x"], fun _ => false, 0, 0, .content ["ERROR 1"]⟩).scanOutput = none
    ∧ (RunSWMMInp.run_swmm_process
        ⟨some "WinError 2", ["x"], fun _ => false, 0, 0, .content ["ERROR 1"]⟩).delivered = [] :=
  (c10_scan_iff_no_exception
    ⟨some "WinError 2", ["x"], fun _ => false, 0, 0, .content ["ERROR 1"]⟩).2 (by decide)

/-- C8: `scanReport` emits at most 10 diagnostic lines; on a report with 12
diagnostic lines it emits exactly the first 10 followed by one literal
ellipsis marker and leaves the 12th diagnostic unread; on a report with 3
diagnostic lines it emits exactly those 3 and no marker. -/
theorem c8_scan_truncation (l1 l2 : List String)
    (h12 : (diagsOf isDiagStarts l1).length = 12)
    (h3 : (diagsOf isDiagStarts l2).length = 3) :
    RunSWMMInp.scan_report (.content l1) = (diagsOf isDiagStarts l1).take 10 ++ ["..."]
    ∧ (diagsOf isDiagStarts (scanLoop isDiagStarts l1 0).2.2).length = 1
    ∧ RunSWMMInp.scan_report (.content l2) = diagsOf isDiagStarts l2
    ∧ (∀ ls : List String, ((scanLoop isDiagStarts ls 0).1).length ≤ 10) := by
  obtain ⟨e1, t1, r1⟩ := scanLoop_spec isDiagStarts l1 0
  obtain ⟨e2, t2, r2⟩ := scanLoop_spec isDiagStarts l2 0
  refine ⟨?_, ?_, ?_, ?_⟩
  · simp [RunSWMMInp.scan_report, e1, t1, h12]
  · rw [r1, List.length_drop, h12]
  · simp only [RunSWMMInp.scan_report, e2, t2, h3]
    simp [List.take_of_length_le, h3]
  · intro ls
    obtain ⟨e, _, _⟩ := scanLoop_spec isDiagStarts ls 0
    rw [e]
    simp [List.length_take]

/-- C8 witness: a 12-diagnostic report truncates after 10 plus the marker. -/
theorem c8_witness :
    (diagsOf isDiagStarts (List.replicate 12 "ERROR x")).length = 12
    ∧ RunSWMMInp.scan_report (.content (List.replicate 12 "ERROR x"))
        = (diagsOf isDiagStarts (List.replicate 12 "ERROR x")).take 10 ++ ["..."] :=
  ⟨by decide,
   (c8_scan_truncation (List.replicate 12 "ERROR x") (List.replicate 3 "WARNING y")
     (by decide) (by decide)).1⟩

/-- Occurrence at the start is an occurrence. -/
theorem beginsWith_occursIn (n : List Char) :
    ∀ h, beginsWith n h = true → occursIn n h = true := by
  intro h
  cases h with
  | nil =>
      cases n with
      | nil => intro _; rfl
      | cons a as => intro hb; simp [beginsWith] at hb
  | cons c cs => intro hb; simp [occursIn, hb]

/-- A line classified by the starts-with rule is classified by the
containment rule. -/
theorem starts_implies_contains (s : String) :
    isDiagStarts s = true → isDiagContains s = true := by
  intro h
  simp only [isDiagStarts, Bool.or_eq_true] at h
  rcases h with h | h
  · simp [isDiagContains, beginsWith_occursIn _ _ h]
  · simp [isDiagContains, beginsWith_occursIn _ _ h]

/-- C9 counterexample: the line "AN ERROR OCCURRED" does not start with ERROR
or WARNING after upper-casing and trimming, yet the `swmm_run_inp.py` scan
emits it (containment match) while the `swmm_run_inp_or_gpkg.py` scan does not
(starts-with match): the two scans do not classify the same set of lines, and
the claimed starts-with characterisation is false for the inp-module scan. -/
theorem c9_counterexample :
    RunSWMMInp.scan_report_inp (.content ["AN ERROR OCCURRED"]) = ["AN ERROR OCCURRED"]
    ∧ isDiagStarts "AN ERROR OCCURRED" = false
    ∧ RunSWMMInp.scan_report (.content ["AN ERROR OCCURRED"]) = [] := by
  refine ⟨by decide, by decide, by decide⟩

/-- C9 (amended): the gpkg-module scan emits a non-empty line as a diagnostic
iff its upper-cased trimmed content starts with ERROR or WARNING, while the
inp-module scan emits it iff that content contains ERROR or WARNING; since a
starts-with match implies a containment match, every line the gpkg scan emits
the inp scan also emits, but not conversely. -/
theorem c9_diagnostic_classifiers :
    (∀ s, isDiagStarts s = true → isDiagContains s = true)
    ∧ (∀ l, RunSWMMInp.scan_report (.content [l])
        = if pyStrip l ≠ "" ∧ isDiagStarts (pyStrip l) = true then [pyStrip l] else [])
    ∧ (∀ l, RunSWMMInp.scan_report_inp (.content [l])
        = if pyStrip l ≠ "" ∧ isDiagContains (pyStrip l) = true then [pyStrip l] else []) := by
  refine ⟨starts_implies_contains, ?_, ?_⟩
  · intro l
    by_cases hs : pyStrip l = ""
    · simp [RunSWMMInp.scan_report, scanLoop, hs]
    · by_cases hdg : isDiagStarts (pyStrip l) = true
      · simp [RunSWMMInp.scan_report, scanLoop, hs, hdg]
      · simp [RunSWMMInp.scan_report, scanLoop, hs, hdg]
  · intro l
    by_cases hs : pyStrip l = ""
    · simp [RunSWMMInp.scan_report_inp, scanLoop, hs]
    · by_cases hdg : isDiagContains (pyStrip l) = true
      · simp [RunSWMMInp.scan_report_inp, scanLoop, hs, hdg]
      · simp [RunSWMMInp.scan_report_inp, scanLoop, hs, hdg]

/-- C9 witness: a line starting with ERROR also matches by containment. -/
theorem c9_witness : isDiagContains "ERROR at node 3" = true :=
  c9_diagnostic_classifiers.1 "ERROR at node 3" (by decide)
